import Mathlib

/-!
Shallow embedding of the npm-mcp-server repository (an Nginx Proxy Manager
API client with a CLI dispatcher and an MCP tool server).

The API client (src/api-client.ts) is modelled as pure state-passing
functions.  Network I/O is modelled by an oracle `Net` mapping each issued
HTTP request to a response; every operation returns the ordered trace of
HTTP requests it issued, its outcome (success value or thrown error), and
the post-state of the client.  JavaScript `Date` values are modelled as
integers (milliseconds); `JSON.parse` of the token endpoint's body is
modelled by the oracle directly supplying the parsed pair
(token, expires-as-date).  `response.json()` on other endpoints is modelled
as the outcome `RequestOutcome.jsonBody body` ("attempt to parse this body
as JSON"), and the `204` branch as `RequestOutcome.emptyObject` (the
literal `{}` returned without touching the body).
-/

/-- A thrown JavaScript `Error`: its `name` and `message` fields. -/
structure JsError where
  name : String
  message : String
  deriving DecidableEq, Repr

/-- `ReadonlyModeError` from src/api-client.ts: message
`Operation "<op>" is not allowed in readonly mode`, name `ReadonlyModeError`. -/
def ReadonlyModeError (operation : String) : JsError :=
  { name := "ReadonlyModeError"
    message := "Operation \"" ++ operation ++ "\" is not allowed in readonly mode" }

/-- `sub` occurs as a contiguous substring of `s`. -/
def strContains (sub s : String) : Prop :=
  sub.data <:+: s.data

instance (sub s : String) : Decidable (strContains sub s) :=
  List.decidableInfix sub.data s.data

/-- `ProxyLocation` DTO (src/api-client.ts). -/
structure ProxyLocation where
  id : Option Int
  path : String
  forward_scheme : String
  forward_host : String
  forward_port : Int
  forward_path : Option String
  advanced_config : Option String
  deriving DecidableEq, Repr

/-- `CreateProxyHostInput` DTO (src/api-client.ts).  Optional fields are
`Option`; `none` models an absent (`undefined`) field. -/
structure CreateProxyHostInput where
  domain_names : List String
  forward_scheme : String
  forward_host : String
  forward_port : Int
  certificate_id : Option Int
  ssl_forced : Option Bool
  hsts_enabled : Option Bool
  hsts_subdomains : Option Bool
  http2_support : Option Bool
  block_exploits : Option Bool
  caching_enabled : Option Bool
  allow_websocket_upgrade : Option Bool
  access_list_id : Option Int
  advanced_config : Option String
  enabled : Option Bool
  locations : Option (List ProxyLocation)
  deriving DecidableEq, Repr

/-- `CreateStreamInput` DTO (src/api-client.ts). -/
structure CreateStreamInput where
  incoming_port : Int
  forwarding_host : String
  forwarding_port : Int
  tcp_forwarding : Option Bool
  udp_forwarding : Option Bool
  enabled : Option Bool
  deriving DecidableEq, Repr

/-- `CreateRedirectionHostInput` DTO (src/api-client.ts). -/
structure CreateRedirectionHostInput where
  domain_names : List String
  forward_scheme : String
  forward_domain_name : String
  forward_http_code : Int
  preserve_path : Option Bool
  certificate_id : Option Int
  ssl_forced : Option Bool
  hsts_enabled : Option Bool
  hsts_subdomains : Option Bool
  http2_support : Option Bool
  block_exploits : Option Bool
  enabled : Option Bool
  deriving DecidableEq, Repr

/-- `CreateDeadHostInput` DTO (src/api-client.ts). -/
structure CreateDeadHostInput where
  domain_names : List String
  certificate_id : Option Int
  ssl_forced : Option Bool
  hsts_enabled : Option Bool
  hsts_subdomains : Option Bool
  http2_support : Option Bool
  enabled : Option Bool
  advanced_config : Option String
  deriving DecidableEq, Repr

/-- `AccessListItem` DTO (src/api-client.ts). -/
structure AccessListItem where
  username : String
  password : String
  deriving DecidableEq, Repr

/-- `AccessListClient` DTO (src/api-client.ts). -/
structure AccessListClient where
  address : String
  directive : String
  deriving DecidableEq, Repr

/-- `CreateAccessListInput` DTO (src/api-client.ts). -/
structure CreateAccessListInput where
  name : String
  satisfy_any : Option Bool
  pass_auth : Option Bool
  items : Option (List AccessListItem)
  clients : Option (List AccessListClient)
  deriving DecidableEq, Repr

/-- A request body, standing for the value passed to `JSON.stringify`.
`tokenCreds` is the `{identity, secret}` body of the token exchange;
`raw` stands for an opaque serialized payload (used for the partial-update
bodies, whose shape no claim inspects). -/
inductive BodyVal where
  | tokenCreds (identity secret : String)
  | proxyHostInput (d : CreateProxyHostInput)
  | streamInput (d : CreateStreamInput)
  | redirectionHostInput (d : CreateRedirectionHostInput)
  | deadHostInput (d : CreateDeadHostInput)
  | accessListInput (d : CreateAccessListInput)
  | raw (s : String)
  deriving DecidableEq, Repr

/-- One HTTP request as issued by `fetch`: method, full URL, the
`Content-Type` and `Authorization` headers (if set), and the body (if any). -/
structure HttpRequest where
  method : String
  url : String
  contentType : Option String
  authorization : Option String
  body : Option BodyVal
  deriving DecidableEq, Repr

/-- One HTTP response as observed by the client: numeric status, body text
(as `response.text()` would yield), and the parse of the body as a
`TokenResponse` (`(data.token, new Date(data.expires))`), consulted only on
the token endpoint's success path. -/
structure HttpResponse where
  status : Nat
  bodyText : String
  tokenJson : String × Int
  deriving DecidableEq, Repr

/-- The network oracle: what response each issued request receives. -/
def Net : Type := HttpRequest → HttpResponse

/-- `response.ok`: status in the inclusive range 200–299. -/
def respOk (r : HttpResponse) : Bool :=
  200 ≤ r.status && r.status ≤ 299

/-- `NpmConfig` (src/api-client.ts); `readonly` is optional. -/
structure NpmConfig where
  baseUrl : String
  email : String
  password : String
  readonly : Option Bool
  deriving DecidableEq, Repr

/-- The `NpmApiClient` instance state: the four constructor-set fields and
the mutable token cache (`token`, `tokenExpires`). -/
structure NpmApiClient where
  baseUrl : String
  token : Option String
  tokenExpires : Option Int
  email : String
  password : String
  _readonly : Bool
  deriving DecidableEq, Repr

/-- `config.baseUrl.replace(/\/$/, "")`: removes one trailing slash
if present. -/
def stripTrailingSlash (s : String) : String :=
  if s.data.getLast? = some '/' then String.mk s.data.dropLast else s

/-- The `NpmApiClient` constructor. -/
def mkClient (config : NpmConfig) : NpmApiClient :=
  { baseUrl := stripTrailingSlash config.baseUrl
    token := none
    tokenExpires := none
    email := config.email
    password := config.password
    _readonly := config.readonly.getD false }

/-- The `isReadonly` getter. -/
def NpmApiClient.isReadonly (c : NpmApiClient) : Bool :=
  c._readonly

/-- The outcome of a successful `request`: either the literal `{}` returned
on a 204, or an attempt to parse the response body as JSON. -/
inductive RequestOutcome where
  | emptyObject
  | jsonBody (body : String)
  deriving DecidableEq, Repr

/-- Success value or thrown error of one client operation. -/
inductive OpResult where
  | ok (v : RequestOutcome)
  | err (e : JsError)
  deriving DecidableEq, Repr

/-- Result of running one client operation: the ordered trace of HTTP
requests issued, the outcome, and the client's post-state. -/
structure RunResult where
  trace : List HttpRequest
  outcome : OpResult
  client : NpmApiClient
  deriving DecidableEq, Repr

/-- The token-acquisition request: `POST {baseUrl}/api/tokens` with JSON
content type, no Authorization header, body `{identity, secret}`. -/
def tokenRequest (c : NpmApiClient) : HttpRequest :=
  { method := "POST"
    url := c.baseUrl ++ "/api/tokens"
    contentType := some "application/json"
    authorization := none
    body := some (BodyVal.tokenCreds c.email c.password) }

/-- Result of `ensureToken`: trace, and either the token plus post-state or
the thrown error. -/
inductive TokenResult where
  | ok (token : String) (c : NpmApiClient)
  | err (e : JsError)
  deriving DecidableEq, Repr

/-- The authentication exchange performed by `ensureToken` when no valid
cached token exists (src/api-client.ts lines 242-261). -/
def NpmApiClient.fetchToken (c : NpmApiClient) (net : Net) :
    List HttpRequest × TokenResult :=
  let req := tokenRequest c
  let response := net req
  if respOk response then
    ([req], TokenResult.ok response.tokenJson.1
      { c with token := some response.tokenJson.1
               tokenExpires := some response.tokenJson.2 })
  else
    ([req], TokenResult.err
      { name := "Error"
        message := "Authentication failed: " ++ response.bodyText })

/-- `ensureToken` (src/api-client.ts lines 237-262): returns the cached
token when `this.token` is truthy (non-null, non-empty), `this.tokenExpires`
is non-null, and the stored expiry is strictly after the current time;
otherwise performs the authentication exchange. -/
def NpmApiClient.ensureToken (c : NpmApiClient) (now : Int) (net : Net) :
    List HttpRequest × TokenResult :=
  match c.token, c.tokenExpires with
  | some t, some e =>
    if t ≠ "" ∧ now < e then ([], TokenResult.ok t c)
    else c.fetchToken net
  | _, _ => c.fetchToken net

/-- The authenticated resource request built by `request`:
`{baseUrl}/api{path}` with JSON content type and a Bearer token. -/
def apiRequest (c : NpmApiClient) (method path : String) (body : Option BodyVal)
    (token : String) : HttpRequest :=
  { method := method
    url := c.baseUrl ++ "/api" ++ path
    contentType := some "application/json"
    authorization := some ("Bearer " ++ token)
    body := body }

/-- `request` (src/api-client.ts lines 264-289): ensure a token, issue the
resource request with it, turn a non-2xx response into an error carrying
status and body, return `{}` on 204, otherwise parse the body as JSON. -/
def NpmApiClient.request (c : NpmApiClient) (now : Int) (net : Net)
    (method path : String) (body : Option BodyVal) : RunResult :=
  match c.ensureToken now net with
  | (tr, TokenResult.err e) => ⟨tr, OpResult.err e, c⟩
  | (tr, TokenResult.ok tok c') =>
    let req := apiRequest c method path body tok
    let response := net req
    if !(respOk response) then
      ⟨tr ++ [req], OpResult.err
        { name := "Error"
          message := "API request failed: " ++ toString response.status
              ++ " - " ++ response.bodyText }, c'⟩
    else if response.status = 204 then
      ⟨tr ++ [req], OpResult.ok RequestOutcome.emptyObject, c'⟩
    else
      ⟨tr ++ [req], OpResult.ok (RequestOutcome.jsonBody response.bodyText), c'⟩

/-- The bare request issued by `getHealth`: `GET {baseUrl}/api/` with no
headers at all (`fetch` with no options). -/
def healthRequest (c : NpmApiClient) : HttpRequest :=
  { method := "GET", url := c.baseUrl ++ "/api/"
    contentType := none, authorization := none, body := none }

/-- `getHealth` (src/api-client.ts lines 517-520): a bare
`fetch(baseUrl + "/api/")` with no headers, whose body is parsed as JSON
without any status check. -/
def NpmApiClient.getHealth (c : NpmApiClient) (_now : Int) (net : Net) : RunResult :=
  let response := net (healthRequest c)
  ⟨[healthRequest c], OpResult.ok (RequestOutcome.jsonBody response.bodyText), c⟩

/-- `listProxyHosts`. -/
def NpmApiClient.listProxyHosts (c : NpmApiClient) (now : Int) (net : Net) : RunResult :=
  c.request now net "GET" "/nginx/proxy-hosts" none

/-- `getProxyHost`. -/
def NpmApiClient.getProxyHost (c : NpmApiClient) (now : Int) (net : Net) (id : Int) : RunResult :=
  c.request now net "GET" ("/nginx/proxy-hosts/" ++ toString id) none

/-- `createProxyHost`: readonly guard, then `POST /nginx/proxy-hosts`. -/
def NpmApiClient.createProxyHost (c : NpmApiClient) (now : Int) (net : Net)
    (data : CreateProxyHostInput) : RunResult :=
  if c._readonly then ⟨[], OpResult.err (ReadonlyModeError "createProxyHost"), c⟩
  else c.request now net "POST" "/nginx/proxy-hosts" (some (BodyVal.proxyHostInput data))

/-- `updateProxyHost`: the partial patch body is kept opaque. -/
def NpmApiClient.updateProxyHost (c : NpmApiClient) (now : Int) (net : Net)
    (id : Int) (data : String) : RunResult :=
  if c._readonly then ⟨[], OpResult.err (ReadonlyModeError "updateProxyHost"), c⟩
  else c.request now net "PUT" ("/nginx/proxy-hosts/" ++ toString id) (some (BodyVal.raw data))

/-- `deleteProxyHost` (the TS method discards the request's value and
returns `void`; the embedding keeps the underlying request result). -/
def NpmApiClient.deleteProxyHost (c : NpmApiClient) (now : Int) (net : Net) (id : Int) : RunResult :=
  if c._readonly then ⟨[], OpResult.err (ReadonlyModeError "deleteProxyHost"), c⟩
  else c.request now net "DELETE" ("/nginx/proxy-hosts/" ++ toString id) none

/-- `enableProxyHost`. -/
def NpmApiClient.enableProxyHost (c : NpmApiClient) (now : Int) (net : Net) (id : Int) : RunResult :=
  if c._readonly then ⟨[], OpResult.err (ReadonlyModeError "enableProxyHost"), c⟩
  else c.request now net "POST" ("/nginx/proxy-hosts/" ++ toString id ++ "/enable") none

/-- `disableProxyHost`. -/
def NpmApiClient.disableProxyHost (c : NpmApiClient) (now : Int) (net : Net) (id : Int) : RunResult :=
  if c._readonly then ⟨[], OpResult.err (ReadonlyModeError "disableProxyHost"), c⟩
  else c.request now net "POST" ("/nginx/proxy-hosts/" ++ toString id ++ "/disable") none

/-- `listCertificates`. -/
def NpmApiClient.listCertificates (c : NpmApiClient) (now : Int) (net : Net) : RunResult :=
  c.request now net "GET" "/nginx/certificates" none

/-- `getCertificate`. -/
def NpmApiClient.getCertificate (c : NpmApiClient) (now : Int) (net : Net) (id : Int) : RunResult :=
  c.request now net "GET" ("/nginx/certificates/" ++ toString id) none

/-- `deleteCertificate`. -/
def NpmApiClient.deleteCertificate (c : NpmApiClient) (now : Int) (net : Net) (id : Int) : RunResult :=
  if c._readonly then ⟨[], OpResult.err (ReadonlyModeError "deleteCertificate"), c⟩
  else c.request now net "DELETE" ("/nginx/certificates/" ++ toString id) none

/-- `renewCertificate`. -/
def NpmApiClient.renewCertificate (c : NpmApiClient) (now : Int) (net : Net) (id : Int) : RunResult :=
  if c._readonly then ⟨[], OpResult.err (ReadonlyModeError "renewCertificate"), c⟩
  else c.request now net "POST" ("/nginx/certificates/" ++ toString id ++ "/renew") none

/-- `listStreams`. -/
def NpmApiClient.listStreams (c : NpmApiClient) (now : Int) (net : Net) : RunResult :=
  c.request now net "GET" "/nginx/streams" none

/-- `getStream`. -/
def NpmApiClient.getStream (c : NpmApiClient) (now : Int) (net : Net) (id : Int) : RunResult :=
  c.request now net "GET" ("/nginx/streams/" ++ toString id) none

/-- `createStream`. -/
def NpmApiClient.createStream (c : NpmApiClient) (now : Int) (net : Net)
    (data : CreateStreamInput) : RunResult :=
  if c._readonly then ⟨[], OpResult.err (ReadonlyModeError "createStream"), c⟩
  else c.request now net "POST" "/nginx/streams" (some (BodyVal.streamInput data))

/-- `updateStream`. -/
def NpmApiClient.updateStream (c : NpmApiClient) (now : Int) (net : Net)
    (id : Int) (data : String) : RunResult :=
  if c._readonly then ⟨[], OpResult.err (ReadonlyModeError "updateStream"), c⟩
  else c.request now net "PUT" ("/nginx/streams/" ++ toString id) (some (BodyVal.raw data))

/-- `deleteStream`. -/
def NpmApiClient.deleteStream (c : NpmApiClient) (now : Int) (net : Net) (id : Int) : RunResult :=
  if c._readonly then ⟨[], OpResult.err (ReadonlyModeError "deleteStream"), c⟩
  else c.request now net "DELETE" ("/nginx/streams/" ++ toString id) none

/-- `enableStream`. -/
def NpmApiClient.enableStream (c : NpmApiClient) (now : Int) (net : Net) (id : Int) : RunResult :=
  if c._readonly then ⟨[], OpResult.err (ReadonlyModeError "enableStream"), c⟩
  else c.request now net "POST" ("/nginx/streams/" ++ toString id ++ "/enable") none

/-- `disableStream`. -/
def NpmApiClient.disableStream (c : NpmApiClient) (now : Int) (net : Net) (id : Int) : RunResult :=
  if c._readonly then ⟨[], OpResult.err (ReadonlyModeError "disableStream"), c⟩
  else c.request now net "POST" ("/nginx/streams/" ++ toString id ++ "/disable") none

/-- `listRedirectionHosts`. -/
def NpmApiClient.listRedirectionHosts (c : NpmApiClient) (now : Int) (net : Net) : RunResult :=
  c.request now net "GET" "/nginx/redirection-hosts" none

/-- `getRedirectionHost`. -/
def NpmApiClient.getRedirectionHost (c : NpmApiClient) (now : Int) (net : Net) (id : Int) : RunResult :=
  c.request now net "GET" ("/nginx/redirection-hosts/" ++ toString id) none

/-- `createRedirectionHost`. -/
def NpmApiClient.createRedirectionHost (c : NpmApiClient) (now : Int) (net : Net)
    (data : CreateRedirectionHostInput) : RunResult :=
  if c._readonly then ⟨[], OpResult.err (ReadonlyModeError "createRedirectionHost"), c⟩
  else c.request now net "POST" "/nginx/redirection-hosts" (some (BodyVal.redirectionHostInput data))

/-- `updateRedirectionHost`. -/
def NpmApiClient.updateRedirectionHost (c : NpmApiClient) (now : Int) (net : Net)
    (id : Int) (data : String) : RunResult :=
  if c._readonly then ⟨[], OpResult.err (ReadonlyModeError "updateRedirectionHost"), c⟩
  else c.request now net "PUT" ("/nginx/redirection-hosts/" ++ toString id) (some (BodyVal.raw data))

/-- `deleteRedirectionHost`. -/
def NpmApiClient.deleteRedirectionHost (c : NpmApiClient) (now : Int) (net : Net) (id : Int) : RunResult :=
  if c._readonly then ⟨[], OpResult.err (ReadonlyModeError "deleteRedirectionHost"), c⟩
  else c.request now net "DELETE" ("/nginx/redirection-hosts/" ++ toString id) none

/-- `enableRedirectionHost`. -/
def NpmApiClient.enableRedirectionHost (c : NpmApiClient) (now : Int) (net : Net) (id : Int) : RunResult :=
  if c._readonly then ⟨[], OpResult.err (ReadonlyModeError "enableRedirectionHost"), c⟩
  else c.request now net "POST" ("/nginx/redirection-hosts/" ++ toString id ++ "/enable") none

/-- `disableRedirectionHost`. -/
def NpmApiClient.disableRedirectionHost (c : NpmApiClient) (now : Int) (net : Net) (id : Int) : RunResult :=
  if c._readonly then ⟨[], OpResult.err (ReadonlyModeError "disableRedirectionHost"), c⟩
  else c.request now net "POST" ("/nginx/redirection-hosts/" ++ toString id ++ "/disable") none

/-- `listDeadHosts`. -/
def NpmApiClient.listDeadHosts (c : NpmApiClient) (now : Int) (net : Net) : RunResult :=
  c.request now net "GET" "/nginx/dead-hosts" none

/-- `getDeadHost`. -/
def NpmApiClient.getDeadHost (c : NpmApiClient) (now : Int) (net : Net) (id : Int) : RunResult :=
  c.request now net "GET" ("/nginx/dead-hosts/" ++ toString id) none

/-- `createDeadHost`. -/
def NpmApiClient.createDeadHost (c : NpmApiClient) (now : Int) (net : Net)
    (data : CreateDeadHostInput) : RunResult :=
  if c._readonly then ⟨[], OpResult.err (ReadonlyModeError "createDeadHost"), c⟩
  else c.request now net "POST" "/nginx/dead-hosts" (some (BodyVal.deadHostInput data))

/-- `updateDeadHost`. -/
def NpmApiClient.updateDeadHost (c : NpmApiClient) (now : Int) (net : Net)
    (id : Int) (data : String) : RunResult :=
  if c._readonly then ⟨[], OpResult.err (ReadonlyModeError "updateDeadHost"), c⟩
  else c.request now net "PUT" ("/nginx/dead-hosts/" ++ toString id) (some (BodyVal.raw data))

/-- `deleteDeadHost`. -/
def NpmApiClient.deleteDeadHost (c : NpmApiClient) (now : Int) (net : Net) (id : Int) : RunResult :=
  if c._readonly then ⟨[], OpResult.err (ReadonlyModeError "deleteDeadHost"), c⟩
  else c.request now net "DELETE" ("/nginx/dead-hosts/" ++ toString id) none

/-- `enableDeadHost`. -/
def NpmApiClient.enableDeadHost (c : NpmApiClient) (now : Int) (net : Net) (id : Int) : RunResult :=
  if c._readonly then ⟨[], OpResult.err (ReadonlyModeError "enableDeadHost"), c⟩
  else c.request now net "POST" ("/nginx/dead-hosts/" ++ toString id ++ "/enable") none

/-- `disableDeadHost`. -/
def NpmApiClient.disableDeadHost (c : NpmApiClient) (now : Int) (net : Net) (id : Int) : RunResult :=
  if c._readonly then ⟨[], OpResult.err (ReadonlyModeError "disableDeadHost"), c⟩
  else c.request now net "POST" ("/nginx/dead-hosts/" ++ toString id ++ "/disable") none

/-- `listAccessLists`. -/
def NpmApiClient.listAccessLists (c : NpmApiClient) (now : Int) (net : Net) : RunResult :=
  c.request now net "GET" "/nginx/access-lists" none

/-- `getAccessList`. -/
def NpmApiClient.getAccessList (c : NpmApiClient) (now : Int) (net : Net) (id : Int) : RunResult :=
  c.request now net "GET" ("/nginx/access-lists/" ++ toString id) none

/-- `createAccessList`. -/
def NpmApiClient.createAccessList (c : NpmApiClient) (now : Int) (net : Net)
    (data : CreateAccessListInput) : RunResult :=
  if c._readonly then ⟨[], OpResult.err (ReadonlyModeError "createAccessList"), c⟩
  else c.request now net "POST" "/nginx/access-lists" (some (BodyVal.accessListInput data))

/-- `updateAccessList`. -/
def NpmApiClient.updateAccessList (c : NpmApiClient) (now : Int) (net : Net)
    (id : Int) (data : String) : RunResult :=
  if c._readonly then ⟨[], OpResult.err (ReadonlyModeError "updateAccessList"), c⟩
  else c.request now net "PUT" ("/nginx/access-lists/" ++ toString id) (some (BodyVal.raw data))

/-- `deleteAccessList`. -/
def NpmApiClient.deleteAccessList (c : NpmApiClient) (now : Int) (net : Net) (id : Int) : RunResult :=
  if c._readonly then ⟨[], OpResult.err (ReadonlyModeError "deleteAccessList"), c⟩
  else c.request now net "DELETE" ("/nginx/access-lists/" ++ toString id) none

/-- `listUsers`. -/
def NpmApiClient.listUsers (c : NpmApiClient) (now : Int) (net : Net) : RunResult :=
  c.request now net "GET" "/users" none

/-- `getUser`. -/
def NpmApiClient.getUser (c : NpmApiClient) (now : Int) (net : Net) (id : Int) : RunResult :=
  c.request now net "GET" ("/users/" ++ toString id) none

/-- One call to a public client method, with its arguments.  The partial
update payloads are opaque serialized strings. -/
inductive ClientCall where
  | listProxyHosts
  | getProxyHost (id : Int)
  | createProxyHost (data : CreateProxyHostInput)
  | updateProxyHost (id : Int) (data : String)
  | deleteProxyHost (id : Int)
  | enableProxyHost (id : Int)
  | disableProxyHost (id : Int)
  | listCertificates
  | getCertificate (id : Int)
  | deleteCertificate (id : Int)
  | renewCertificate (id : Int)
  | listStreams
  | getStream (id : Int)
  | createStream (data : CreateStreamInput)
  | updateStream (id : Int) (data : String)
  | deleteStream (id : Int)
  | enableStream (id : Int)
  | disableStream (id : Int)
  | listRedirectionHosts
  | getRedirectionHost (id : Int)
  | createRedirectionHost (data : CreateRedirectionHostInput)
  | updateRedirectionHost (id : Int) (data : String)
  | deleteRedirectionHost (id : Int)
  | enableRedirectionHost (id : Int)
  | disableRedirectionHost (id : Int)
  | listDeadHosts
  | getDeadHost (id : Int)
  | createDeadHost (data : CreateDeadHostInput)
  | updateDeadHost (id : Int) (data : String)
  | deleteDeadHost (id : Int)
  | enableDeadHost (id : Int)
  | disableDeadHost (id : Int)
  | listAccessLists
  | getAccessList (id : Int)
  | createAccessList (data : CreateAccessListInput)
  | updateAccessList (id : Int) (data : String)
  | deleteAccessList (id : Int)
  | listUsers
  | getUser (id : Int)
  | getHealth
  deriving DecidableEq, Repr

/-- Dispatch one `ClientCall` to the corresponding client method. -/
def runCall (c : NpmApiClient) (now : Int) (net : Net) : ClientCall → RunResult
  | .listProxyHosts => c.listProxyHosts now net
  | .getProxyHost id => c.getProxyHost now net id
  | .createProxyHost d => c.createProxyHost now net d
  | .updateProxyHost id d => c.updateProxyHost now net id d
  | .deleteProxyHost id => c.deleteProxyHost now net id
  | .enableProxyHost id => c.enableProxyHost now net id
  | .disableProxyHost id => c.disableProxyHost now net id
  | .listCertificates => c.listCertificates now net
  | .getCertificate id => c.getCertificate now net id
  | .deleteCertificate id => c.deleteCertificate now net id
  | .renewCertificate id => c.renewCertificate now net id
  | .listStreams => c.listStreams now net
  | .getStream id => c.getStream now net id
  | .createStream d => c.createStream now net d
  | .updateStream id d => c.updateStream now net id d
  | .deleteStream id => c.deleteStream now net id
  | .enableStream id => c.enableStream now net id
  | .disableStream id => c.disableStream now net id
  | .listRedirectionHosts => c.listRedirectionHosts now net
  | .getRedirectionHost id => c.getRedirectionHost now net id
  | .createRedirectionHost d => c.createRedirectionHost now net d
  | .updateRedirectionHost id d => c.updateRedirectionHost now net id d
  | .deleteRedirectionHost id => c.deleteRedirectionHost now net id
  | .enableRedirectionHost id => c.enableRedirectionHost now net id
  | .disableRedirectionHost id => c.disableRedirectionHost now net id
  | .listDeadHosts => c.listDeadHosts now net
  | .getDeadHost id => c.getDeadHost now net id
  | .createDeadHost d => c.createDeadHost now net d
  | .updateDeadHost id d => c.updateDeadHost now net id d
  | .deleteDeadHost id => c.deleteDeadHost now net id
  | .enableDeadHost id => c.enableDeadHost now net id
  | .disableDeadHost id => c.disableDeadHost now net id
  | .listAccessLists => c.listAccessLists now net
  | .getAccessList id => c.getAccessList now net id
  | .createAccessList d => c.createAccessList now net d
  | .updateAccessList id d => c.updateAccessList now net id d
  | .deleteAccessList id => c.deleteAccessList now net id
  | .listUsers => c.listUsers now net
  | .getUser id => c.getUser now net id
  | .getHealth => c.getHealth now net

/-- The operation name a call passes to `assertWritable`, or `none` for the
read operations (which never call `assertWritable`). -/
def mutatingName : ClientCall → Option String
  | .createProxyHost _ => some "createProxyHost"
  | .updateProxyHost _ _ => some "updateProxyHost"
  | .deleteProxyHost _ => some "deleteProxyHost"
  | .enableProxyHost _ => some "enableProxyHost"
  | .disableProxyHost _ => some "disableProxyHost"
  | .deleteCertificate _ => some "deleteCertificate"
  | .renewCertificate _ => some "renewCertificate"
  | .createStream _ => some "createStream"
  | .updateStream _ _ => some "updateStream"
  | .deleteStream _ => some "deleteStream"
  | .enableStream _ => some "enableStream"
  | .disableStream _ => some "disableStream"
  | .createRedirectionHost _ => some "createRedirectionHost"
  | .updateRedirectionHost _ _ => some "updateRedirectionHost"
  | .deleteRedirectionHost _ => some "deleteRedirectionHost"
  | .enableRedirectionHost _ => some "enableRedirectionHost"
  | .disableRedirectionHost _ => some "disableRedirectionHost"
  | .createDeadHost _ => some "createDeadHost"
  | .updateDeadHost _ _ => some "updateDeadHost"
  | .deleteDeadHost _ => some "deleteDeadHost"
  | .enableDeadHost _ => some "enableDeadHost"
  | .disableDeadHost _ => some "disableDeadHost"
  | .createAccessList _ => some "createAccessList"
  | .updateAccessList _ _ => some "updateAccessList"
  | .deleteAccessList _ => some "deleteAccessList"
  | .listProxyHosts => none
  | .getProxyHost _ => none
  | .listCertificates => none
  | .getCertificate _ => none
  | .listStreams => none
  | .getStream _ => none
  | .listRedirectionHosts => none
  | .getRedirectionHost _ => none
  | .listDeadHosts => none
  | .getDeadHost _ => none
  | .listAccessLists => none
  | .getAccessList _ => none
  | .listUsers => none
  | .getUser _ => none
  | .getHealth => none

/-- A data operation: every client method that goes through the `request`
helper (everything except `getHealth`). -/
def isDataOp : ClientCall → Bool
  | .getHealth => false
  | _ => true

/-- A token-acquisition request is the only request the client ever issues
with method POST and no Authorization header. -/
def isAuthRequest (r : HttpRequest) : Bool :=
  r.method == "POST" && r.authorization == none

/-- Number of authentication requests in a trace. -/
def countAuth (tr : List HttpRequest) : Nat :=
  tr.countP isAuthRequest

/-- JavaScript `parseInt(s)` in base 10: skip leading whitespace, read an
optional sign and then a maximal run of decimal digits; `NaN` (modelled as
`none`) when no digit is read, otherwise the value of the digits read
(trailing garbage ignored).  The hexadecimal `0x` prefix special case is
not modelled. -/
def parseIntJS (s : String) : Option Int :=
  let l := s.data.dropWhile (fun c => c.isWhitespace)
  let signed : Int × List Char :=
    match l with
    | '-' :: rest => (-1, rest)
    | '+' :: rest => (1, rest)
    | _ => (1, l)
  let ds := signed.2.takeWhile (fun c => c.isDigit)
  if ds = [] then none
  else some (signed.1 * (ds.foldl (fun a c => a * 10 + (c.toNat - 48)) 0 : Nat))

/-- `pre` is a prefix of `l` (character-list form of `String.startsWith`,
kept executable by kernel reduction). -/
def listPrefixOf : List Char → List Char → Bool
  | [], _ => true
  | a :: as, l =>
    match l with
    | [] => false
    | b :: bs => a == b && listPrefixOf as bs

/-- JavaScript `s.startsWith(pre)`. -/
def jsStartsWith (pre s : String) : Bool :=
  listPrefixOf pre.data s.data

/-- JavaScript `s.slice(n)` for a non-negative index. -/
def jsDrop (n : Nat) (s : String) : String :=
  String.mk (s.data.drop n)

/-- `parseArgs` (src/cli.ts lines 26-37): scan the argument list; each
`--key` takes the following token as its value when that token is truthy
(non-empty) and does not itself start with `--`, else the value `"true"`;
a consumed value token is skipped unless it is the literal `"true"`. -/
def parseArgs : List String → List (String × String)
  | [] => []
  | a :: rest =>
    if jsStartsWith "--" a then
      match rest with
      | [] => [(jsDrop 2 a, "true")]
      | b :: rest2 =>
        if b ≠ "" ∧ ¬ jsStartsWith "--" b then
          if b ≠ "true" then (jsDrop 2 a, b) :: parseArgs rest2
          else (jsDrop 2 a, b) :: parseArgs (b :: rest2)
        else (jsDrop 2 a, "true") :: parseArgs (b :: rest2)
    else parseArgs rest

/-- Lookup in the option record built by `parseArgs`; assignment in a JS
object is last-write-wins. -/
def getOpt (opts : List (String × String)) (key : String) : Option String :=
  ((opts.filter (fun p => p.1 == key)).getLast?).map (fun p => p.2)

/-- `parseInt(v) || d`: `NaN` (unparsable or absent) and `0` both fall back
to the default. -/
def parseIntOr (v : Option String) (d : Int) : Int :=
  match v with
  | none => d
  | some s =>
    match parseIntJS s with
    | none => d
    | some n => if n = 0 then d else n

/-- `v || d` on strings: absent and empty both fall back to the default. -/
def strOr (v : Option String) (d : String) : String :=
  match v with
  | none => d
  | some s => if s = "" then d else s

/-- JavaScript `split` by a one-character separator, on character lists:
the empty string yields `[[]]` (JS: `"".split(",")` is `[""]`). -/
def jsSplitList (sep : Char) : List Char → List (List Char)
  | [] => [[]]
  | c :: rest =>
    let r := jsSplitList sep rest
    if c == sep then [] :: r
    else
      match r with
      | [] => [[c]]
      | h :: t => (c :: h) :: t

/-- JavaScript `s.split(sep)` for a one-character separator. -/
def jsSplit (sep : Char) (s : String) : List String :=
  (jsSplitList sep s.data).map String.mk

/-- `opts.domains?.split(",") || []`. -/
def splitDomains (v : Option String) : List String :=
  match v with
  | none => []
  | some s => jsSplit ',' s

/-- `opts["certificate-id"] ? parseInt(opts["certificate-id"]) : undefined`
(a `parseInt` yielding `NaN` is collapsed to an absent field). -/
def certIdOpt (v : Option String) : Option Int :=
  match v with
  | none => none
  | some s => if s = "" then none else parseIntJS s

/-- The `CreateProxyHostInput` built by `proxy-hosts create`
(src/cli.ts lines 72-88). -/
def cliProxyHostInput (opts : List (String × String)) : CreateProxyHostInput :=
  { domain_names := splitDomains (getOpt opts "domains")
    forward_host := strOr (getOpt opts "forward-host") ""
    forward_port := parseIntOr (getOpt opts "forward-port") 80
    forward_scheme := strOr (getOpt opts "forward-scheme") "http"
    ssl_forced := some (getOpt opts "ssl-forced" == some "true")
    allow_websocket_upgrade := some (getOpt opts "websocket" == some "true")
    block_exploits := some (getOpt opts "block-exploits" == some "true")
    caching_enabled := some (getOpt opts "caching" == some "true")
    http2_support := some (getOpt opts "http2" == some "true")
    certificate_id := certIdOpt (getOpt opts "certificate-id")
    hsts_enabled := none
    hsts_subdomains := none
    access_list_id := none
    advanced_config := none
    enabled := none
    locations := none }

/-- The `CreateStreamInput` built by `streams create`
(src/cli.ts lines 130-141). -/
def cliStreamInput (opts : List (String × String)) : CreateStreamInput :=
  { incoming_port := parseIntOr (getOpt opts "incoming-port") 0
    forwarding_host := strOr (getOpt opts "forward-host") ""
    forwarding_port := parseIntOr (getOpt opts "forward-port") 0
    tcp_forwarding := some (!(getOpt opts "tcp" == some "false"))
    udp_forwarding := some (getOpt opts "udp" == some "true")
    enabled := none }

/-- The `CreateRedirectionHostInput` built by `redirections create`
(src/cli.ts lines 217-228). -/
def cliRedirectionInput (opts : List (String × String)) : CreateRedirectionHostInput :=
  { domain_names := splitDomains (getOpt opts "domains")
    forward_scheme := strOr (getOpt opts "forward-scheme") "$scheme"
    forward_domain_name := strOr (getOpt opts "forward-domain") ""
    forward_http_code := parseIntOr (getOpt opts "http-code") 301
    preserve_path := some (!(getOpt opts "preserve-path" == some "false"))
    certificate_id := none
    ssl_forced := none
    hsts_enabled := none
    hsts_subdomains := none
    http2_support := none
    block_exploits := none
    enabled := none }

/-- The `CreateAccessListInput` built by `access-lists create`
(src/cli.ts lines 256-263). -/
def cliAccessListInput (opts : List (String × String)) : CreateAccessListInput :=
  { name := strOr (getOpt opts "name") "New Access List"
    satisfy_any := none
    pass_auth := none
    items := none
    clients := none }

/-- The `CreateDeadHostInput` built by `dead-hosts create`
(src/cli.ts lines 291-297). -/
def cliDeadHostInput (opts : List (String × String)) : CreateDeadHostInput :=
  { domain_names := splitDomains (getOpt opts "domains")
    certificate_id := none
    ssl_forced := none
    hsts_enabled := none
    hsts_subdomains := none
    http2_support := none
    enabled := none
    advanced_config := none }

/-- What one CLI invocation does before/at its single client call:
either a client call, the locally thrown `Invalid ID` error, a per-command
usage line, or the top-level usage text. -/
inductive CliStep where
  | call (k : ClientCall)
  | invalidId
  | subUsage (msg : String)
  | mainUsage
  deriving DecidableEq, Repr

/-- `parseInt(args[2])` as used for id arguments: a missing third argument
behaves like an unparsable one (`parseInt(undefined)` is `NaN`). -/
def parseIdArg (args : List String) : Option Int :=
  (args.get? 2).bind parseIntJS

/-- The CLI dispatch (the `switch` in `main`, src/cli.ts lines 45-382). -/
def cliDispatch (args : List String) : CliStep :=
  match args.get? 0 with
  | some "status" => CliStep.call ClientCall.getHealth
  | some "proxy-hosts" =>
    match args.get? 1 with
    | some "list" => CliStep.call ClientCall.listProxyHosts
    | some "get" =>
      match parseIdArg args with
      | none => CliStep.invalidId
      | some id => CliStep.call (ClientCall.getProxyHost id)
    | some "create" =>
      CliStep.call (ClientCall.createProxyHost (cliProxyHostInput (parseArgs (args.drop 2))))
    | some "delete" =>
      match parseIdArg args with
      | none => CliStep.invalidId
      | some id => CliStep.call (ClientCall.deleteProxyHost id)
    | some "enable" =>
      match parseIdArg args with
      | none => CliStep.invalidId
      | some id => CliStep.call (ClientCall.enableProxyHost id)
    | some "disable" =>
      match parseIdArg args with
      | none => CliStep.invalidId
      | some id => CliStep.call (ClientCall.disableProxyHost id)
    | _ => CliStep.subUsage "Usage: proxy-hosts [list|get|create|delete|enable|disable]"
  | some "streams" =>
    match args.get? 1 with
    | some "list" => CliStep.call ClientCall.listStreams
    | some "get" =>
      match parseIdArg args with
      | none => CliStep.invalidId
      | some id => CliStep.call (ClientCall.getStream id)
    | some "create" =>
      CliStep.call (ClientCall.createStream (cliStreamInput (parseArgs (args.drop 2))))
    | some "delete" =>
      match parseIdArg args with
      | none => CliStep.invalidId
      | some id => CliStep.call (ClientCall.deleteStream id)
    | some "enable" =>
      match parseIdArg args with
      | none => CliStep.invalidId
      | some id => CliStep.call (ClientCall.enableStream id)
    | some "disable" =>
      match parseIdArg args with
      | none => CliStep.invalidId
      | some id => CliStep.call (ClientCall.disableStream id)
    | _ => CliStep.subUsage "Usage: streams [list|get|create|delete|enable|disable]"
  | some "certificates" =>
    match args.get? 1 with
    | some "list" => CliStep.call ClientCall.listCertificates
    | some "get" =>
      match parseIdArg args with
      | none => CliStep.invalidId
      | some id => CliStep.call (ClientCall.getCertificate id)
    | some "renew" =>
      match parseIdArg args with
      | none => CliStep.invalidId
      | some id => CliStep.call (ClientCall.renewCertificate id)
    | some "delete" =>
      match parseIdArg args with
      | none => CliStep.invalidId
      | some id => CliStep.call (ClientCall.deleteCertificate id)
    | _ => CliStep.subUsage "Usage: certificates [list|get|renew|delete]"
  | some "redirections" =>
    match args.get? 1 with
    | some "list" => CliStep.call ClientCall.listRedirectionHosts
    | some "get" =>
      match parseIdArg args with
      | none => CliStep.invalidId
      | some id => CliStep.call (ClientCall.getRedirectionHost id)
    | some "create" =>
      CliStep.call (ClientCall.createRedirectionHost (cliRedirectionInput (parseArgs (args.drop 2))))
    | some "delete" =>
      match parseIdArg args with
      | none => CliStep.invalidId
      | some id => CliStep.call (ClientCall.deleteRedirectionHost id)
    | _ => CliStep.subUsage "Usage: redirections [list|get|create|delete]"
  | some "access-lists" =>
    match args.get? 1 with
    | some "list" => CliStep.call ClientCall.listAccessLists
    | some "get" =>
      match parseIdArg args with
      | none => CliStep.invalidId
      | some id => CliStep.call (ClientCall.getAccessList id)
    | some "create" =>
      CliStep.call (ClientCall.createAccessList (cliAccessListInput (parseArgs (args.drop 2))))
    | some "delete" =>
      match parseIdArg args with
      | none => CliStep.invalidId
      | some id => CliStep.call (ClientCall.deleteAccessList id)
    | _ => CliStep.subUsage "Usage: access-lists [list|get|create|delete]"
  | some "dead-hosts" =>
    match args.get? 1 with
    | some "list" => CliStep.call ClientCall.listDeadHosts
    | some "get" =>
      match parseIdArg args with
      | none => CliStep.invalidId
      | some id => CliStep.call (ClientCall.getDeadHost id)
    | some "create" =>
      CliStep.call (ClientCall.createDeadHost (cliDeadHostInput (parseArgs (args.drop 2))))
    | some "delete" =>
      match parseIdArg args with
      | none => CliStep.invalidId
      | some id => CliStep.call (ClientCall.deleteDeadHost id)
    | _ => CliStep.subUsage "Usage: dead-hosts [list|get|create|delete]"
  | some "users" =>
    match args.get? 1 with
    | some "list" => CliStep.call ClientCall.listUsers
    | some "get" =>
      match parseIdArg args with
      | none => CliStep.invalidId
      | some id => CliStep.call (ClientCall.getUser id)
    | _ => CliStep.subUsage "Usage: users [list|get]"
  | _ => CliStep.mainUsage

/-- The observable outcome of one CLI invocation: process exit code, HTTP
requests issued, and the error message printed by the `catch` handler
(if any). -/
structure CliExit where
  exitCode : Nat
  httpTrace : List HttpRequest
  errMsg : Option String
  deriving DecidableEq, Repr

/-- One CLI invocation end to end (`main` plus its `catch`): a locally
thrown `Invalid ID` is caught, printed, and exits with code 1 before any
client call; usage paths print and exit normally; a client call's thrown
error is caught, printed, and exits with code 1; success exits with 0. -/
def cliMain (c : NpmApiClient) (now : Int) (net : Net) (args : List String) : CliExit :=
  match cliDispatch args with
  | CliStep.invalidId => ⟨1, [], some "Invalid ID"⟩
  | CliStep.subUsage _ => ⟨0, [], none⟩
  | CliStep.mainUsage => ⟨0, [], none⟩
  | CliStep.call k =>
    let r := runCall c now net k
    match r.outcome with
    | OpResult.ok _ => ⟨0, r.trace, none⟩
    | OpResult.err e => ⟨1, r.trace, some e.message⟩

/-- The (command, subcommand) pairs whose CLI handler requires a numeric id
argument. -/
def idSubcommands : List (String × String) :=
  [("proxy-hosts", "get"), ("proxy-hosts", "delete"),
   ("proxy-hosts", "enable"), ("proxy-hosts", "disable"),
   ("streams", "get"), ("streams", "delete"),
   ("streams", "enable"), ("streams", "disable"),
   ("certificates", "get"), ("certificates", "renew"), ("certificates", "delete"),
   ("redirections", "get"), ("redirections", "delete"),
   ("access-lists", "get"), ("access-lists", "delete"),
   ("dead-hosts", "get"), ("dead-hosts", "delete"),
   ("users", "get")]

/-- A process environment: variable name to value. -/
def EnvMap : Type := String → Option String

/-- `process.env.NPM_READONLY === "true"` (src/cli.ts line 8 and
src/index.ts line 12). -/
def npmReadonlyEnv (env : EnvMap) : Bool :=
  env "NPM_READONLY" == some "true"

/-- The client constructed by the CLI entry point (src/cli.ts lines 5-20). -/
def cliClient (env : EnvMap) : NpmApiClient :=
  mkClient
    { baseUrl := strOr (env "NPM_URL") "http://localhost:81"
      email := strOr (env "NPM_EMAIL") ""
      password := strOr (env "NPM_PASSWORD") ""
      readonly := some (npmReadonlyEnv env) }

/-- The client constructed by the MCP tool-server entry point
(src/index.ts lines 9-26); textually the same construction as the CLI's. -/
def serverClient (env : EnvMap) : NpmApiClient :=
  mkClient
    { baseUrl := strOr (env "NPM_URL") "http://localhost:81"
      email := strOr (env "NPM_EMAIL") ""
      password := strOr (env "NPM_PASSWORD") ""
      readonly := some (npmReadonlyEnv env) }

/-! ## Helper lemmas -/

theorem strContains_middle (a b c : String) : strContains b (a ++ b ++ c) := by
  refine ⟨a.data, c.data, ?_⟩
  simp [String.data_append]

theorem strContains_expand (x a b c : String) (h : strContains x c) :
    strContains x (a ++ b ++ c) :=
  h.trans ⟨(a ++ b).data, [], by simp [String.data_append]⟩

theorem strContains_op_name (op : String) :
    strContains op (ReadonlyModeError op).message :=
  strContains_middle "Operation \"" op "\" is not allowed in readonly mode"

theorem strContains_readonly_mode (op : String) :
    strContains "readonly mode" (ReadonlyModeError op).message :=
  strContains_expand "readonly mode" "Operation \"" op
    "\" is not allowed in readonly mode" (by decide)

theorem ensureToken_cached (c : NpmApiClient) (now : Int) (net : Net)
    (t : String) (e : Int)
    (h1 : c.token = some t) (h2 : t ≠ "") (h3 : c.tokenExpires = some e)
    (h4 : now < e) :
    c.ensureToken now net = ([], TokenResult.ok t c) := by
  unfold NpmApiClient.ensureToken
  rw [h1, h3]
  simp [h2, h4]

theorem ensureToken_uncached (c : NpmApiClient) (now : Int) (net : Net)
    (h : ∀ t e, c.token = some t → c.tokenExpires = some e → t = "" ∨ e ≤ now) :
    c.ensureToken now net = c.fetchToken net := by
  unfold NpmApiClient.ensureToken
  cases htk : c.token with
  | none => rfl
  | some t =>
    cases hex : c.tokenExpires with
    | none => rfl
    | some e =>
      have hcond : ¬ (t ≠ "" ∧ now < e) := by
        rcases h t e htk hex with h' | h'
        · simp [h']
        · intro hc
          omega
      simp [hcond]

theorem fetchToken_ok (c : NpmApiClient) (net : Net)
    (h : respOk (net (tokenRequest c)) = true) :
    c.fetchToken net = ([tokenRequest c],
      TokenResult.ok (net (tokenRequest c)).tokenJson.1
        { c with token := some (net (tokenRequest c)).tokenJson.1
                 tokenExpires := some (net (tokenRequest c)).tokenJson.2 }) := by
  unfold NpmApiClient.fetchToken
  simp [h]

theorem fetchToken_err (c : NpmApiClient) (net : Net)
    (h : respOk (net (tokenRequest c)) = false) :
    c.fetchToken net = ([tokenRequest c],
      TokenResult.err
        ⟨"Error", "Authentication failed: " ++ (net (tokenRequest c)).bodyText⟩) := by
  unfold NpmApiClient.fetchToken
  simp [h]

theorem request_of_ensure_err (c : NpmApiClient) (now : Int) (net : Net)
    (m p : String) (bd : Option BodyVal) (tr : List HttpRequest) (e : JsError)
    (h : c.ensureToken now net = (tr, TokenResult.err e)) :
    c.request now net m p bd = ⟨tr, OpResult.err e, c⟩ := by
  unfold NpmApiClient.request
  rw [h]

theorem request_ok_bad (c : NpmApiClient) (now : Int) (net : Net)
    (m p : String) (bd : Option BodyVal) (tr : List HttpRequest)
    (tok : String) (c' : NpmApiClient)
    (h : c.ensureToken now net = (tr, TokenResult.ok tok c'))
    (hb : respOk (net (apiRequest c m p bd tok)) = false) :
    c.request now net m p bd =
      ⟨tr ++ [apiRequest c m p bd tok],
       OpResult.err ⟨"Error",
         "API request failed: " ++ toString (net (apiRequest c m p bd tok)).status
           ++ " - " ++ (net (apiRequest c m p bd tok)).bodyText⟩, c'⟩ := by
  unfold NpmApiClient.request
  rw [h]
  simp [hb]

theorem request_ok_204 (c : NpmApiClient) (now : Int) (net : Net)
    (m p : String) (bd : Option BodyVal) (tr : List HttpRequest)
    (tok : String) (c' : NpmApiClient)
    (h : c.ensureToken now net = (tr, TokenResult.ok tok c'))
    (hb : respOk (net (apiRequest c m p bd tok)) = true)
    (h204 : (net (apiRequest c m p bd tok)).status = 204) :
    c.request now net m p bd =
      ⟨tr ++ [apiRequest c m p bd tok], OpResult.ok RequestOutcome.emptyObject, c'⟩ := by
  unfold NpmApiClient.request
  rw [h]
  simp [hb, h204]

theorem request_ok_json (c : NpmApiClient) (now : Int) (net : Net)
    (m p : String) (bd : Option BodyVal) (tr : List HttpRequest)
    (tok : String) (c' : NpmApiClient)
    (h : c.ensureToken now net = (tr, TokenResult.ok tok c'))
    (hb : respOk (net (apiRequest c m p bd tok)) = true)
    (h204 : ¬ (net (apiRequest c m p bd tok)).status = 204) :
    c.request now net m p bd =
      ⟨tr ++ [apiRequest c m p bd tok],
       OpResult.ok (RequestOutcome.jsonBody (net (apiRequest c m p bd tok)).bodyText), c'⟩ := by
  unfold NpmApiClient.request
  rw [h]
  simp [hb, h204]

theorem request_flag_irrel (bu : String) (tk : Option String) (ex : Option Int)
    (em pw : String) (r1 r2 : Bool) (now : Int) (net : Net)
    (m p : String) (bd : Option BodyVal) :
    (NpmApiClient.request ⟨bu, tk, ex, em, pw, r1⟩ now net m p bd).trace
        = (NpmApiClient.request ⟨bu, tk, ex, em, pw, r2⟩ now net m p bd).trace
    ∧ (NpmApiClient.request ⟨bu, tk, ex, em, pw, r1⟩ now net m p bd).outcome
        = (NpmApiClient.request ⟨bu, tk, ex, em, pw, r2⟩ now net m p bd).outcome := by
  by_cases hcache : ∃ t e, tk = some t ∧ t ≠ "" ∧ ex = some e ∧ now < e
  · obtain ⟨t, e, h1, h2, h3, h4⟩ := hcache
    have e1 := ensureToken_cached ⟨bu, tk, ex, em, pw, r1⟩ now net t e h1 h2 h3 h4
    have e2 := ensureToken_cached ⟨bu, tk, ex, em, pw, r2⟩ now net t e h1 h2 h3 h4
    by_cases hb : respOk (net (apiRequest ⟨bu, tk, ex, em, pw, r1⟩ m p bd t)) = true
    · by_cases h204 : (net (apiRequest ⟨bu, tk, ex, em, pw, r1⟩ m p bd t)).status = 204
      · rw [request_ok_204 _ now net m p bd _ _ _ e1 hb h204,
            request_ok_204 _ now net m p bd _ _ _ e2 hb h204]
        exact ⟨rfl, rfl⟩
      · rw [request_ok_json _ now net m p bd _ _ _ e1 hb h204,
            request_ok_json _ now net m p bd _ _ _ e2 hb h204]
        exact ⟨rfl, rfl⟩
    · have hb' : respOk (net (apiRequest ⟨bu, tk, ex, em, pw, r1⟩ m p bd t)) = false := by
        simpa using hb
      rw [request_ok_bad _ now net m p bd _ _ _ e1 hb',
          request_ok_bad _ now net m p bd _ _ _ e2 hb']
      exact ⟨rfl, rfl⟩
  · have hun : ∀ t e, tk = some t → ex = some e → t = "" ∨ e ≤ now := by
      intro t e ht he
      by_contra hc
      push_neg at hc
      exact hcache ⟨t, e, ht, hc.1, he, by omega⟩
    have e1 := (ensureToken_uncached ⟨bu, tk, ex, em, pw, r1⟩ now net hun)
    have e2 := (ensureToken_uncached ⟨bu, tk, ex, em, pw, r2⟩ now net hun)
    by_cases hf : respOk (net (tokenRequest ⟨bu, tk, ex, em, pw, r1⟩)) = true
    · have E1 := e1.trans (fetchToken_ok ⟨bu, tk, ex, em, pw, r1⟩ net hf)
      have E2 := e2.trans (fetchToken_ok ⟨bu, tk, ex, em, pw, r2⟩ net hf)
      by_cases hb : respOk (net (apiRequest ⟨bu, tk, ex, em, pw, r1⟩ m p bd
          ((net (tokenRequest ⟨bu, tk, ex, em, pw, r1⟩)).tokenJson.1))) = true
      · by_cases h204 : (net (apiRequest ⟨bu, tk, ex, em, pw, r1⟩ m p bd
            ((net (tokenRequest ⟨bu, tk, ex, em, pw, r1⟩)).tokenJson.1))).status = 204
        · rw [request_ok_204 _ now net m p bd _ _ _ E1 hb h204,
              request_ok_204 _ now net m p bd _ _ _ E2 hb h204]
          exact ⟨rfl, rfl⟩
        · rw [request_ok_json _ now net m p bd _ _ _ E1 hb h204,
              request_ok_json _ now net m p bd _ _ _ E2 hb h204]
          exact ⟨rfl, rfl⟩
      · have hb' : respOk (net (apiRequest ⟨bu, tk, ex, em, pw, r1⟩ m p bd
            ((net (tokenRequest ⟨bu, tk, ex, em, pw, r1⟩)).tokenJson.1))) = false := by
          simpa using hb
        rw [request_ok_bad _ now net m p bd _ _ _ E1 hb',
            request_ok_bad _ now net m p bd _ _ _ E2 hb']
        exact ⟨rfl, rfl⟩
    · have hf' : respOk (net (tokenRequest ⟨bu, tk, ex, em, pw, r1⟩)) = false := by
        simpa using hf
      have E1 := e1.trans (fetchToken_err ⟨bu, tk, ex, em, pw, r1⟩ net hf')
      have E2 := e2.trans (fetchToken_err ⟨bu, tk, ex, em, pw, r2⟩ net hf')
      rw [request_of_ensure_err _ now net m p bd _ _ E1,
          request_of_ensure_err _ now net m p bd _ _ E2]
      exact ⟨rfl, rfl⟩

theorem mutating_blocked (c : NpmApiClient) (now : Int) (net : Net)
    (call : ClientCall) (op : String)
    (h : c._readonly = true) (hop : mutatingName call = some op) :
    runCall c now net call = ⟨[], OpResult.err (ReadonlyModeError op), c⟩ := by
  cases call <;> simp_all [runCall, mutatingName,
    NpmApiClient.createProxyHost, NpmApiClient.updateProxyHost,
    NpmApiClient.deleteProxyHost, NpmApiClient.enableProxyHost,
    NpmApiClient.disableProxyHost, NpmApiClient.deleteCertificate,
    NpmApiClient.renewCertificate, NpmApiClient.createStream,
    NpmApiClient.updateStream, NpmApiClient.deleteStream,
    NpmApiClient.enableStream, NpmApiClient.disableStream,
    NpmApiClient.createRedirectionHost, NpmApiClient.updateRedirectionHost,
    NpmApiClient.deleteRedirectionHost, NpmApiClient.enableRedirectionHost,
    NpmApiClient.disableRedirectionHost, NpmApiClient.createDeadHost,
    NpmApiClient.updateDeadHost, NpmApiClient.deleteDeadHost,
    NpmApiClient.enableDeadHost, NpmApiClient.disableDeadHost,
    NpmApiClient.createAccessList, NpmApiClient.updateAccessList,
    NpmApiClient.deleteAccessList]

theorem read_flag_irrel (c : NpmApiClient) (now : Int) (net : Net)
    (call : ClientCall) (b : Bool) (hnone : mutatingName call = none) :
    (runCall { c with _readonly := b } now net call).trace
        = (runCall c now net call).trace
    ∧ (runCall { c with _readonly := b } now net call).outcome
        = (runCall c now net call).outcome := by
  obtain ⟨bu, tk, ex, em, pw, ro⟩ := c
  cases call <;> simp [mutatingName] at hnone <;>
    first
      | exact request_flag_irrel bu tk ex em pw b ro now net _ _ _
      | exact ⟨rfl, rfl⟩

/-! ## Concrete fixtures for witnesses and counterexamples -/

/-- A network returning 200 with an empty JSON array and token data. -/
def okNet : Net := fun _ => ⟨200, "[]", ("tok", 100)⟩

/-- A fresh readonly client. -/
def roClient : NpmApiClient := ⟨"http://npm", none, none, "admin@local", "pw", true⟩

/-- A fresh read-write client. -/
def rwClient : NpmApiClient := ⟨"http://npm", none, none, "admin@local", "pw", false⟩

/-! ## Claims -/

/-- C1: with the readonly flag set, every mutating client operation fails
with a `ReadonlyModeError` whose message contains the operation's name and
the phrase "readonly mode", and issues no HTTP request at all; every read
operation's behaviour (trace and outcome) is independent of the readonly
flag. -/
theorem C1_readonly_gating
    (c : NpmApiClient) (now : Int) (net : Net) (call : ClientCall)
    (h : c._readonly = true) :
    (∀ op, mutatingName call = some op →
        runCall c now net call = ⟨[], OpResult.err (ReadonlyModeError op), c⟩
        ∧ strContains op (ReadonlyModeError op).message
        ∧ strContains "readonly mode" (ReadonlyModeError op).message)
    ∧ (mutatingName call = none →
        ∀ b : Bool,
          (runCall { c with _readonly := b } now net call).trace
              = (runCall c now net call).trace
          ∧ (runCall { c with _readonly := b } now net call).outcome
              = (runCall c now net call).outcome) :=
  ⟨fun op hop => ⟨mutating_blocked c now net call op h hop,
      strContains_op_name op, strContains_readonly_mode op⟩,
   fun hnone b => read_flag_irrel c now net call b hnone⟩

/-- C1 witness: `deleteStream(5)` on a readonly client fails with the
`ReadonlyModeError`, issues no request, and the message contains
"deleteStream" and "readonly mode". -/
theorem C1_readonly_gating_witness :
    runCall roClient 0 okNet (ClientCall.deleteStream 5)
        = ⟨[], OpResult.err (ReadonlyModeError "deleteStream"), roClient⟩
    ∧ strContains "deleteStream" (ReadonlyModeError "deleteStream").message
    ∧ strContains "readonly mode" (ReadonlyModeError "deleteStream").message :=
  (C1_readonly_gating roClient 0 okNet (ClientCall.deleteStream 5) rfl).1
    "deleteStream" rfl

/-! ## Per-call request parameters (for stating trace-level properties) -/

/-- The HTTP method each data operation passes to `request`. -/
def callMth : ClientCall → String
  | .listProxyHosts => "GET"
  | .getProxyHost _ => "GET"
  | .createProxyHost _ => "POST"
  | .updateProxyHost _ _ => "PUT"
  | .deleteProxyHost _ => "DELETE"
  | .enableProxyHost _ => "POST"
  | .disableProxyHost _ => "POST"
  | .listCertificates => "GET"
  | .getCertificate _ => "GET"
  | .deleteCertificate _ => "DELETE"
  | .renewCertificate _ => "POST"
  | .listStreams => "GET"
  | .getStream _ => "GET"
  | .createStream _ => "POST"
  | .updateStream _ _ => "PUT"
  | .deleteStream _ => "DELETE"
  | .enableStream _ => "POST"
  | .disableStream _ => "POST"
  | .listRedirectionHosts => "GET"
  | .getRedirectionHost _ => "GET"
  | .createRedirectionHost _ => "POST"
  | .updateRedirectionHost _ _ => "PUT"
  | .deleteRedirectionHost _ => "DELETE"
  | .enableRedirectionHost _ => "POST"
  | .disableRedirectionHost _ => "POST"
  | .listDeadHosts => "GET"
  | .getDeadHost _ => "GET"
  | .createDeadHost _ => "POST"
  | .updateDeadHost _ _ => "PUT"
  | .deleteDeadHost _ => "DELETE"
  | .enableDeadHost _ => "POST"
  | .disableDeadHost _ => "POST"
  | .listAccessLists => "GET"
  | .getAccessList _ => "GET"
  | .createAccessList _ => "POST"
  | .updateAccessList _ _ => "PUT"
  | .deleteAccessList _ => "DELETE"
  | .listUsers => "GET"
  | .getUser _ => "GET"
  | .getHealth => "GET"

/-- The path each data operation passes to `request`. -/
def callPth : ClientCall → String
  | .listProxyHosts => "/nginx/proxy-hosts"
  | .getProxyHost id => "/nginx/proxy-hosts/" ++ toString id
  | .createProxyHost _ => "/nginx/proxy-hosts"
  | .updateProxyHost id _ => "/nginx/proxy-hosts/" ++ toString id
  | .deleteProxyHost id => "/nginx/proxy-hosts/" ++ toString id
  | .enableProxyHost id => "/nginx/proxy-hosts/" ++ toString id ++ "/enable"
  | .disableProxyHost id => "/nginx/proxy-hosts/" ++ toString id ++ "/disable"
  | .listCertificates => "/nginx/certificates"
  | .getCertificate id => "/nginx/certificates/" ++ toString id
  | .deleteCertificate id => "/nginx/certificates/" ++ toString id
  | .renewCertificate id => "/nginx/certificates/" ++ toString id ++ "/renew"
  | .listStreams => "/nginx/streams"
  | .getStream id => "/nginx/streams/" ++ toString id
  | .createStream _ => "/nginx/streams"
  | .updateStream id _ => "/nginx/streams/" ++ toString id
  | .deleteStream id => "/nginx/streams/" ++ toString id
  | .enableStream id => "/nginx/streams/" ++ toString id ++ "/enable"
  | .disableStream id => "/nginx/streams/" ++ toString id ++ "/disable"
  | .listRedirectionHosts => "/nginx/redirection-hosts"
  | .getRedirectionHost id => "/nginx/redirection-hosts/" ++ toString id
  | .createRedirectionHost _ => "/nginx/redirection-hosts"
  | .updateRedirectionHost id _ => "/nginx/redirection-hosts/" ++ toString id
  | .deleteRedirectionHost id => "/nginx/redirection-hosts/" ++ toString id
  | .enableRedirectionHost id => "/nginx/redirection-hosts/" ++ toString id ++ "/enable"
  | .disableRedirectionHost id => "/nginx/redirection-hosts/" ++ toString id ++ "/disable"
  | .listDeadHosts => "/nginx/dead-hosts"
  | .getDeadHost id => "/nginx/dead-hosts/" ++ toString id
  | .createDeadHost _ => "/nginx/dead-hosts"
  | .updateDeadHost id _ => "/nginx/dead-hosts/" ++ toString id
  | .deleteDeadHost id => "/nginx/dead-hosts/" ++ toString id
  | .enableDeadHost id => "/nginx/dead-hosts/" ++ toString id ++ "/enable"
  | .disableDeadHost id => "/nginx/dead-hosts/" ++ toString id ++ "/disable"
  | .listAccessLists => "/nginx/access-lists"
  | .getAccessList id => "/nginx/access-lists/" ++ toString id
  | .createAccessList _ => "/nginx/access-lists"
  | .updateAccessList id _ => "/nginx/access-lists/" ++ toString id
  | .deleteAccessList id => "/nginx/access-lists/" ++ toString id
  | .listUsers => "/users"
  | .getUser id => "/users/" ++ toString id
  | .getHealth => "/"

/-- The body each data operation passes to `request`. -/
def callBdy : ClientCall → Option BodyVal
  | .createProxyHost d => some (BodyVal.proxyHostInput d)
  | .updateProxyHost _ d => some (BodyVal.raw d)
  | .createStream d => some (BodyVal.streamInput d)
  | .updateStream _ d => some (BodyVal.raw d)
  | .createRedirectionHost d => some (BodyVal.redirectionHostInput d)
  | .updateRedirectionHost _ d => some (BodyVal.raw d)
  | .createDeadHost d => some (BodyVal.deadHostInput d)
  | .updateDeadHost _ d => some (BodyVal.raw d)
  | .createAccessList d => some (BodyVal.accessListInput d)
  | .updateAccessList _ d => some (BodyVal.raw d)
  | _ => none

theorem runCall_data_eq (c : NpmApiClient) (now : Int) (net : Net)
    (k : ClientCall) (hk : isDataOp k = true) (hr : c._readonly = false) :
    runCall c now net k = c.request now net (callMth k) (callPth k) (callBdy k) := by
  cases k <;> simp_all [runCall, isDataOp, callMth, callPth, callBdy,
    NpmApiClient.listProxyHosts, NpmApiClient.getProxyHost,
    NpmApiClient.createProxyHost, NpmApiClient.updateProxyHost,
    NpmApiClient.deleteProxyHost, NpmApiClient.enableProxyHost,
    NpmApiClient.disableProxyHost, NpmApiClient.listCertificates,
    NpmApiClient.getCertificate, NpmApiClient.deleteCertificate,
    NpmApiClient.renewCertificate, NpmApiClient.listStreams,
    NpmApiClient.getStream, NpmApiClient.createStream,
    NpmApiClient.updateStream, NpmApiClient.deleteStream,
    NpmApiClient.enableStream, NpmApiClient.disableStream,
    NpmApiClient.listRedirectionHosts, NpmApiClient.getRedirectionHost,
    NpmApiClient.createRedirectionHost, NpmApiClient.updateRedirectionHost,
    NpmApiClient.deleteRedirectionHost, NpmApiClient.enableRedirectionHost,
    NpmApiClient.disableRedirectionHost, NpmApiClient.listDeadHosts,
    NpmApiClient.getDeadHost, NpmApiClient.createDeadHost,
    NpmApiClient.updateDeadHost, NpmApiClient.deleteDeadHost,
    NpmApiClient.enableDeadHost, NpmApiClient.disableDeadHost,
    NpmApiClient.listAccessLists, NpmApiClient.getAccessList,
    NpmApiClient.createAccessList, NpmApiClient.updateAccessList,
    NpmApiClient.deleteAccessList, NpmApiClient.listUsers,
    NpmApiClient.getUser]

theorem fetchToken_fst (c : NpmApiClient) (net : Net) :
    (c.fetchToken net).1 = [tokenRequest c] := by
  by_cases h : respOk (net (tokenRequest c)) = true
  · rw [fetchToken_ok c net h]
  · rw [fetchToken_err c net (by simpa using h)]

theorem ensureToken_not_cached (c : NpmApiClient) (now : Int) (net : Net)
    (hne : ¬ ∃ t e, c.token = some t ∧ t ≠ "" ∧ c.tokenExpires = some e ∧ now < e) :
    c.ensureToken now net = c.fetchToken net := by
  apply ensureToken_uncached
  intro t e ht he
  by_contra hc
  push_neg at hc
  exact hne ⟨t, e, ht, hc.1, he, by omega⟩

theorem request_after_fetch (c : NpmApiClient) (now : Int) (net : Net)
    (m p : String) (bd : Option BodyVal) (tok : String) (c' : NpmApiClient)
    (h : c.ensureToken now net = ([tokenRequest c], TokenResult.ok tok c')) :
    (c.request now net m p bd).trace = [tokenRequest c, apiRequest c m p bd tok]
    ∧ (c.request now net m p bd).client = c' := by
  by_cases hb : respOk (net (apiRequest c m p bd tok)) = true
  · by_cases h204 : (net (apiRequest c m p bd tok)).status = 204
    · rw [request_ok_204 c now net m p bd _ tok c' h hb h204]
      exact ⟨rfl, rfl⟩
    · rw [request_ok_json c now net m p bd _ tok c' h hb h204]
      exact ⟨rfl, rfl⟩
  · rw [request_ok_bad c now net m p bd _ tok c' h (by simpa using hb)]
    exact ⟨rfl, rfl⟩

theorem request_cached_parts (c : NpmApiClient) (now : Int) (net : Net)
    (m p : String) (bd : Option BodyVal) (t : String) (e : Int)
    (h1 : c.token = some t) (h2 : t ≠ "") (h3 : c.tokenExpires = some e)
    (h4 : now < e) :
    (c.request now net m p bd).trace = [apiRequest c m p bd t]
    ∧ (c.request now net m p bd).client = c := by
  have h := ensureToken_cached c now net t e h1 h2 h3 h4
  by_cases hb : respOk (net (apiRequest c m p bd t)) = true
  · by_cases h204 : (net (apiRequest c m p bd t)).status = 204
    · rw [request_ok_204 c now net m p bd _ t c h hb h204]
      exact ⟨rfl, rfl⟩
    · rw [request_ok_json c now net m p bd _ t c h hb h204]
      exact ⟨rfl, rfl⟩
  · rw [request_ok_bad c now net m p bd _ t c h (by simpa using hb)]
    exact ⟨rfl, rfl⟩

theorem isAuth_tokenRequest (c : NpmApiClient) :
    isAuthRequest (tokenRequest c) = true := rfl

theorem isAuth_apiRequest (c : NpmApiClient) (m p : String) (bd : Option BodyVal)
    (t : String) : isAuthRequest (apiRequest c m p bd t) = false := by
  simp [isAuthRequest, apiRequest]

/-- A client holding a stored (but empty-string) token with a future expiry. -/
def emptyTokClient : NpmApiClient :=
  ⟨"http://npm", some "", some 10, "admin@local", "pw", false⟩

/-- C2 counterexample: a client with a stored token (the empty string) and a
stored expiry strictly later than the current time, for which `ensureToken`
nevertheless issues an authentication request — the "if" direction of the
claimed iff fails, because the code's truthiness check treats an
empty-string token as absent. -/
theorem C2_token_lifecycle_counterexample :
    ¬ (((∃ t, emptyTokClient.token = some t)
          ∧ ∃ e, emptyTokClient.tokenExpires = some e ∧ (0 : Int) < e)
        → (emptyTokClient.ensureToken 0 okNet).1 = []) := by
  intro h
  have h2 := h ⟨⟨"", rfl⟩, ⟨10, rfl, by omega⟩⟩
  revert h2
  decide

/-- C2 (amended): `ensureToken` returns the cached token with no
authentication request iff a **non-empty** token is stored and the stored
expiry is strictly later than the current time; otherwise it performs
exactly one authentication exchange; a call at or after the stored expiry
re-authenticates; and two sequential data operations within the validity
window trigger exactly one authentication request in total. -/
theorem C2_token_lifecycle (c : NpmApiClient) (now : Int) (net : Net) :
    ((c.ensureToken now net).1 = [] ↔
        ∃ t e, c.token = some t ∧ t ≠ "" ∧ c.tokenExpires = some e ∧ now < e)
    ∧ ((c.ensureToken now net).1 ≠ [] →
        (c.ensureToken now net).1 = [tokenRequest c])
    ∧ (∀ e, c.tokenExpires = some e → e ≤ now →
        (c.ensureToken now net).1 = [tokenRequest c])
    ∧ (∀ (k1 k2 : ClientCall) (now1 now2 : Int) (net1 net2 : Net),
        isDataOp k1 = true → isDataOp k2 = true →
        c.token = none → c._readonly = false →
        respOk (net1 (tokenRequest c)) = true →
        (net1 (tokenRequest c)).tokenJson.1 ≠ "" →
        now2 < (net1 (tokenRequest c)).tokenJson.2 →
        countAuth ((runCall c now1 net1 k1).trace
            ++ (runCall (runCall c now1 net1 k1).client now2 net2 k2).trace) = 1) := by
  refine ⟨⟨?_, ?_⟩, ?_, ?_, ?_⟩
  · intro htr
    by_cases hcache : ∃ t e, c.token = some t ∧ t ≠ "" ∧ c.tokenExpires = some e ∧ now < e
    · exact hcache
    · rw [ensureToken_not_cached c now net hcache, fetchToken_fst] at htr
      exact absurd htr (by simp)
  · rintro ⟨t, e, h1, h2, h3, h4⟩
    rw [ensureToken_cached c now net t e h1 h2 h3 h4]
  · intro hne
    by_cases hcache : ∃ t e, c.token = some t ∧ t ≠ "" ∧ c.tokenExpires = some e ∧ now < e
    · obtain ⟨t, e, h1, h2, h3, h4⟩ := hcache
      rw [ensureToken_cached c now net t e h1 h2 h3 h4] at hne
      exact absurd rfl hne
    · rw [ensureToken_not_cached c now net hcache, fetchToken_fst]
  · intro e he hle
    rw [ensureToken_not_cached c now net ?_, fetchToken_fst]
    rintro ⟨t, e', h1, h2, h3, h4⟩
    rw [he] at h3
    injection h3 with h3
    omega
  · intro k1 k2 now1 now2 net1 net2 hk1 hk2 h0 hr hok ht he2
    have e1 := (ensureToken_uncached c now1 net1
        (by intro t e ht' he'; rw [h0] at ht'; exact absurd ht' (by simp))).trans
      (fetchToken_ok c net1 hok)
    rw [runCall_data_eq c now1 net1 k1 hk1 hr]
    obtain ⟨htr1, hcl1⟩ := request_after_fetch c now1 net1
      (callMth k1) (callPth k1) (callBdy k1)
      (net1 (tokenRequest c)).tokenJson.1
      { c with token := some (net1 (tokenRequest c)).tokenJson.1
               tokenExpires := some (net1 (tokenRequest c)).tokenJson.2 } e1
    rw [htr1, hcl1]
    rw [runCall_data_eq
      { c with token := some (net1 (tokenRequest c)).tokenJson.1
               tokenExpires := some (net1 (tokenRequest c)).tokenJson.2 }
      now2 net2 k2 hk2 hr]
    obtain ⟨htr2, _⟩ := request_cached_parts
      { c with token := some (net1 (tokenRequest c)).tokenJson.1
               tokenExpires := some (net1 (tokenRequest c)).tokenJson.2 }
      now2 net2 (callMth k2) (callPth k2) (callBdy k2)
      (net1 (tokenRequest c)).tokenJson.1 (net1 (tokenRequest c)).tokenJson.2
      rfl ht rfl he2
    rw [htr2]
    simp [countAuth, List.countP_append, List.countP_cons, List.countP_nil,
      isAuth_tokenRequest, isAuth_apiRequest]

/-- C2 witness: from a fresh client, a first call authenticates and a second
call fifty time-units later (within the 100-unit validity window) does not,
for one authentication request in total; and a fresh client's `ensureToken`
issues exactly the token request. -/
theorem C2_token_lifecycle_witness :
    countAuth ((runCall rwClient 0 okNet ClientCall.listProxyHosts).trace
        ++ (runCall (runCall rwClient 0 okNet ClientCall.listProxyHosts).client 50 okNet
              (ClientCall.getProxyHost 1)).trace) = 1
    ∧ (rwClient.ensureToken 0 okNet).1 = [tokenRequest rwClient] :=
  ⟨(C2_token_lifecycle rwClient 0 okNet).2.2.2 ClientCall.listProxyHosts
      (ClientCall.getProxyHost 1) 0 50 okNet okNet rfl rfl rfl rfl
      (by decide) (by decide) (by decide),
   (C2_token_lifecycle rwClient 0 okNet).2.1 (by decide)⟩

theorem strContains_congr (x s1 s2 : String) (h : s1.data = s2.data)
    (hc : strContains x s1) : strContains x s2 := by
  unfold strContains at *
  rw [← h]
  exact hc

/-- A network answering 500 with body "boom" to every request. -/
def badNet : Net := fun _ => ⟨500, "boom", ("tok", 100)⟩

/-- A network answering 404 with body "not found" to every request. -/
def net404 : Net := fun _ => ⟨404, "not found", ("t", 0)⟩

/-- A client holding a valid cached token "tok" until time 100. -/
def vClient : NpmApiClient :=
  ⟨"http://npm", some "tok", some 100, "admin@local", "pw", false⟩

/-- C3 counterexample: a 500 response from the token endpoint yields the
error message `Authentication failed: boom`, which contains the response
body but not the status code "500" — refuting the claim that every
endpoint's non-2xx error message carries the status code. -/
theorem C3_status_in_errors_counterexample :
    (rwClient.listProxyHosts 0 badNet).outcome
        = OpResult.err ⟨"Error", "Authentication failed: boom"⟩
    ∧ ¬ strContains "500" "Authentication failed: boom" :=
  ⟨by decide, by decide⟩

/-- C3 (amended): a non-2xx response from a **resource** endpoint yields an
error whose message contains both the status code and the body; a non-2xx
response from the **token** endpoint yields `Authentication failed: <body>`
— containing the body but not the status; the **health** endpoint performs
no status check at all and hands the body to the JSON parser regardless of
status. -/
theorem C3_error_propagation (c : NpmApiClient) (now : Int) (net : Net)
    (m p : String) (bd : Option BodyVal) :
    (∀ t e, c.token = some t → t ≠ "" → c.tokenExpires = some e → now < e →
        respOk (net (apiRequest c m p bd t)) = false →
        (c.request now net m p bd).outcome = OpResult.err
            ⟨"Error", "API request failed: "
                ++ toString (net (apiRequest c m p bd t)).status
                ++ " - " ++ (net (apiRequest c m p bd t)).bodyText⟩
        ∧ strContains (toString (net (apiRequest c m p bd t)).status)
            ("API request failed: " ++ toString (net (apiRequest c m p bd t)).status
                ++ " - " ++ (net (apiRequest c m p bd t)).bodyText)
        ∧ strContains (net (apiRequest c m p bd t)).bodyText
            ("API request failed: " ++ toString (net (apiRequest c m p bd t)).status
                ++ " - " ++ (net (apiRequest c m p bd t)).bodyText))
    ∧ (respOk (net (tokenRequest c)) = false →
        (c.fetchToken net).2 = TokenResult.err
            ⟨"Error", "Authentication failed: " ++ (net (tokenRequest c)).bodyText⟩
        ∧ strContains (net (tokenRequest c)).bodyText
            ("Authentication failed: " ++ (net (tokenRequest c)).bodyText))
    ∧ ((c.getHealth now net).outcome
        = OpResult.ok (RequestOutcome.jsonBody (net (healthRequest c)).bodyText)) := by
  refine ⟨?_, ?_, rfl⟩
  · intro t e h1 h2 h3 h4 hbad
    have h := ensureToken_cached c now net t e h1 h2 h3 h4
    refine ⟨by rw [request_ok_bad c now net m p bd _ t c h hbad], ?_, ?_⟩
    · refine strContains_congr _ _ _ ?_
        (strContains_middle "API request failed: "
          (toString (net (apiRequest c m p bd t)).status)
          (" - " ++ (net (apiRequest c m p bd t)).bodyText))
      simp [String.data_append]
    · refine strContains_congr _ _ _ ?_
        (strContains_middle
          ("API request failed: " ++ toString (net (apiRequest c m p bd t)).status ++ " - ")
          ((net (apiRequest c m p bd t)).bodyText) "")
      simp [String.data_append]
  · intro hbad
    refine ⟨by rw [fetchToken_err c net hbad], ?_⟩
    refine strContains_congr _ _ _ ?_
      (strContains_middle "Authentication failed: "
        ((net (tokenRequest c)).bodyText) "")
    simp [String.data_append]

/-- C3 witness: a cached-token client hitting a 404 resource endpoint gets
`API request failed: 404 - not found`; a fresh client hitting a 500 token
endpoint gets `Authentication failed: boom`; the health endpoint on the
same failing network still "succeeds" with the body handed to the parser. -/
theorem C3_error_propagation_witness :
    (vClient.request 0 net404 "GET" "/nginx/proxy-hosts" none).outcome
        = OpResult.err ⟨"Error", "API request failed: 404 - not found"⟩
    ∧ (rwClient.fetchToken badNet).2
        = TokenResult.err ⟨"Error", "Authentication failed: boom"⟩
    ∧ (rwClient.getHealth 0 badNet).outcome
        = OpResult.ok (RequestOutcome.jsonBody "boom") := by
  refine ⟨?_, ?_, ?_⟩
  · exact ((C3_error_propagation vClient 0 net404 "GET" "/nginx/proxy-hosts" none).1
      "tok" 100 rfl (by decide) rfl (by decide) (by decide)).1.trans (by decide)
  · exact ((C3_error_propagation rwClient 0 badNet "GET" "/" none).2.1
      (by decide)).1.trans (by decide)
  · exact ((C3_error_propagation rwClient 0 badNet "GET" "/" none).2.2).trans (by decide)

/-- C4 counterexample: `getHealth` issues a request that is not the token
acquisition (its URL is not the token endpoint) yet carries no
Authorization header — refuting the claim that every request except token
acquisition is authenticated. -/
theorem C4_bearer_auth_counterexample :
    (rwClient.getHealth 0 okNet).trace = [healthRequest rwClient]
    ∧ (healthRequest rwClient).authorization = none
    ∧ (healthRequest rwClient).url ≠ rwClient.baseUrl ++ "/api/tokens" :=
  ⟨rfl, rfl, by decide⟩

/-- C4 (amended): every request issued through the `request` helper, other
than the token-acquisition request itself, carries an
`Authorization: Bearer <token>` header; the token request and the health
request carry no Authorization header at all. -/
theorem C4_bearer_auth (c : NpmApiClient) (now : Int) (net : Net)
    (m p : String) (bd : Option BodyVal) :
    (∀ r ∈ (c.request now net m p bd).trace,
        isAuthRequest r = false →
        ∃ tok, r.authorization = some ("Bearer " ++ tok))
    ∧ (tokenRequest c).authorization = none
    ∧ (healthRequest c).authorization = none := by
  refine ⟨?_, rfl, rfl⟩
  by_cases hcache : ∃ t e, c.token = some t ∧ t ≠ "" ∧ c.tokenExpires = some e ∧ now < e
  · obtain ⟨t, e, h1, h2, h3, h4⟩ := hcache
    obtain ⟨htr, -⟩ := request_cached_parts c now net m p bd t e h1 h2 h3 h4
    rw [htr]
    intro r hr _hn
    simp only [List.mem_singleton] at hr
    exact ⟨t, by rw [hr]; rfl⟩
  · have e0 := ensureToken_not_cached c now net hcache
    by_cases hf : respOk (net (tokenRequest c)) = true
    · obtain ⟨htr, -⟩ := request_after_fetch c now net m p bd _ _
        (e0.trans (fetchToken_ok c net hf))
      rw [htr]
      intro r hr hn
      simp only [List.mem_cons, List.not_mem_nil, or_false] at hr
      rcases hr with hr | hr
      · rw [hr, isAuth_tokenRequest] at hn
        exact absurd hn (by simp)
      · exact ⟨(net (tokenRequest c)).tokenJson.1, by rw [hr]; rfl⟩
    · rw [request_of_ensure_err c now net m p bd _ _
        (e0.trans (fetchToken_err c net (by simpa using hf)))]
      intro r hr hn
      simp only [List.mem_singleton] at hr
      rw [hr, isAuth_tokenRequest] at hn
      exact absurd hn (by simp)

/-- C4 witness: in the trace of a cached-token resource call, the resource
request (which is not an authentication request) carries the Bearer header. -/
theorem C4_bearer_auth_witness :
    ∃ tok, (apiRequest vClient "GET" "/nginx/proxy-hosts" none "tok").authorization
        = some ("Bearer " ++ tok) :=
  (C4_bearer_auth vClient 0 okNet "GET" "/nginx/proxy-hosts" none).1
    (apiRequest vClient "GET" "/nginx/proxy-hosts" none "tok") (by decide) (by decide)

/-- A network answering 204 No Content to every request. -/
def net204 : Net := fun _ => ⟨204, "", ("t", 0)⟩

/-- C5: for every data operation, a 204 No Content response from the
resource endpoint is returned as the empty successful result `{}`, not as
an error and not as a JSON parse of the body. -/
theorem C5_204_empty_success (c : NpmApiClient) (now : Int) (net : Net)
    (k : ClientCall) (t : String) (e : Int)
    (hk : isDataOp k = true) (hr : c._readonly = false)
    (h1 : c.token = some t) (h2 : t ≠ "") (h3 : c.tokenExpires = some e)
    (h4 : now < e)
    (h204 : (net (apiRequest c (callMth k) (callPth k) (callBdy k) t)).status = 204) :
    (runCall c now net k).outcome = OpResult.ok RequestOutcome.emptyObject := by
  rw [runCall_data_eq c now net k hk hr]
  have h := ensureToken_cached c now net t e h1 h2 h3 h4
  rw [request_ok_204 c now net _ _ _ _ t c h (by simp [respOk, h204]) h204]

/-- C5 witness: `deleteProxyHost(3)` against a 204-answering endpoint with a
valid cached token yields the empty success result. -/
theorem C5_204_empty_success_witness :
    (runCall vClient 0 net204 (ClientCall.deleteProxyHost 3)).outcome
        = OpResult.ok RequestOutcome.emptyObject :=
  C5_204_empty_success vClient 0 net204 (ClientCall.deleteProxyHost 3) "tok" 100
    rfl rfl rfl (by decide) rfl (by decide) (by decide)

theorem request_client_frame (c : NpmApiClient) (now : Int) (net : Net)
    (m p : String) (bd : Option BodyVal) :
    (c.request now net m p bd).client.baseUrl = c.baseUrl
    ∧ (c.request now net m p bd).client.email = c.email
    ∧ (c.request now net m p bd).client.password = c.password
    ∧ (c.request now net m p bd).client._readonly = c._readonly := by
  by_cases hcache : ∃ t e, c.token = some t ∧ t ≠ "" ∧ c.tokenExpires = some e ∧ now < e
  · obtain ⟨t, e, h1, h2, h3, h4⟩ := hcache
    obtain ⟨-, hcl⟩ := request_cached_parts c now net m p bd t e h1 h2 h3 h4
    rw [hcl]
    exact ⟨rfl, rfl, rfl, rfl⟩
  · have e0 := ensureToken_not_cached c now net hcache
    by_cases hf : respOk (net (tokenRequest c)) = true
    · obtain ⟨-, hcl⟩ := request_after_fetch c now net m p bd _ _
        (e0.trans (fetchToken_ok c net hf))
      rw [hcl]
      exact ⟨rfl, rfl, rfl, rfl⟩
    · rw [request_of_ensure_err c now net m p bd _ _
        (e0.trans (fetchToken_err c net (by simpa using hf)))]
      exact ⟨rfl, rfl, rfl, rfl⟩

/-- C6: every client operation leaves `baseUrl`, `email`, `password` and
`_readonly` unchanged (only the token cache is ever mutated), and
`isReadonly` returns the construction-time value of `config.readonly`,
defaulting to `false` when omitted. -/
theorem C6_frame_immutability :
    (∀ (c : NpmApiClient) (now : Int) (net : Net) (k : ClientCall),
        (runCall c now net k).client.baseUrl = c.baseUrl
        ∧ (runCall c now net k).client.email = c.email
        ∧ (runCall c now net k).client.password = c.password
        ∧ (runCall c now net k).client._readonly = c._readonly)
    ∧ (∀ config : NpmConfig,
        (mkClient config).isReadonly = config.readonly.getD false) := by
  constructor
  · intro c now net k
    cases k <;>
      simp only [runCall,
        NpmApiClient.listProxyHosts, NpmApiClient.getProxyHost,
        NpmApiClient.createProxyHost, NpmApiClient.updateProxyHost,
        NpmApiClient.deleteProxyHost, NpmApiClient.enableProxyHost,
        NpmApiClient.disableProxyHost, NpmApiClient.listCertificates,
        NpmApiClient.getCertificate, NpmApiClient.deleteCertificate,
        NpmApiClient.renewCertificate, NpmApiClient.listStreams,
        NpmApiClient.getStream, NpmApiClient.createStream,
        NpmApiClient.updateStream, NpmApiClient.deleteStream,
        NpmApiClient.enableStream, NpmApiClient.disableStream,
        NpmApiClient.listRedirectionHosts, NpmApiClient.getRedirectionHost,
        NpmApiClient.createRedirectionHost, NpmApiClient.updateRedirectionHost,
        NpmApiClient.deleteRedirectionHost, NpmApiClient.enableRedirectionHost,
        NpmApiClient.disableRedirectionHost, NpmApiClient.listDeadHosts,
        NpmApiClient.getDeadHost, NpmApiClient.createDeadHost,
        NpmApiClient.updateDeadHost, NpmApiClient.deleteDeadHost,
        NpmApiClient.enableDeadHost, NpmApiClient.disableDeadHost,
        NpmApiClient.listAccessLists, NpmApiClient.getAccessList,
        NpmApiClient.createAccessList, NpmApiClient.updateAccessList,
        NpmApiClient.deleteAccessList, NpmApiClient.listUsers,
        NpmApiClient.getUser, NpmApiClient.getHealth] <;>
      (try split_ifs) <;>
      first
        | exact ⟨rfl, rfl, rfl, rfl⟩
        | exact ⟨trivial, trivial, trivial, trivial⟩
        | exact request_client_frame c now net _ _ _
  · intro config
    rfl

/-- C7: every CLI subcommand that requires a numeric id, given an argument
`parseInt` cannot parse (or no argument at all), fails before any client
call: no HTTP request is issued, the `Invalid ID` error message is printed,
and the process exits with code 1. -/
theorem C7_invalid_id_fatal (c : NpmApiClient) (now : Int) (net : Net)
    (cs : String × String) (idArg : String) (restArgs : List String)
    (hmem : cs ∈ idSubcommands)
    (hbad : parseIntJS idArg = none) :
    cliMain c now net (cs.1 :: cs.2 :: idArg :: restArgs)
        = ⟨1, [], some "Invalid ID"⟩ := by
  simp only [idSubcommands] at hmem
  fin_cases hmem <;> simp [cliMain, cliDispatch, parseIdArg, hbad]

/-- C7 witness: `proxy-hosts get abc` prints an error and exits 1 with no
HTTP traffic. -/
theorem C7_invalid_id_fatal_witness :
    cliMain rwClient 0 okNet ["proxy-hosts", "get", "abc"]
        = ⟨1, [], some "Invalid ID"⟩ :=
  C7_invalid_id_fatal rwClient 0 okNet ("proxy-hosts", "get") "abc" []
    (by decide) (by decide)

/-- C8: both the CLI and the MCP tool server construct the client readonly
iff the `NPM_READONLY` environment variable is exactly the string "true". -/
theorem C8_readonly_env (env : EnvMap) :
    ((cliClient env).isReadonly = true ↔ env "NPM_READONLY" = some "true")
    ∧ ((serverClient env).isReadonly = true ↔ env "NPM_READONLY" = some "true") := by
  constructor <;>
    simp [cliClient, serverClient, mkClient, NpmApiClient.isReadonly, npmReadonlyEnv]

/-- Config with base URL "http://npm//" (two trailing slashes). -/
def cfgSlash2 : NpmConfig := ⟨"http://npm//", "admin@local", "pw", some false⟩

/-- Config with base URL "http://npm/" (one trailing slash). -/
def cfgSlash1 : NpmConfig := ⟨"http://npm/", "admin@local", "pw", some false⟩

/-- C9 counterexample: for `u := "http://npm/"` (which itself ends in a
slash), the client built from `u ++ "/"` and the client built from `u`
issue different request URLs — the claimed URL identity does not hold for
every configuration. -/
theorem C9_base_url_counterexample :
    ("http://npm/" ++ "/" : String) = "http://npm//"
    ∧ ((mkClient cfgSlash2).listProxyHosts 0 okNet).trace.map HttpRequest.url
        ≠ ((mkClient cfgSlash1).listProxyHosts 0 okNet).trace.map HttpRequest.url :=
  ⟨by decide, by decide⟩

/-- C9 (amended): for every base URL `u` **not itself ending in a slash**,
the constructor normalizes `u ++ "/"` and `u` to identical clients (hence
byte-identical request URLs for every operation); and stripping removes
exactly one slash, so a URL with two trailing slashes keeps one. -/
theorem C9_base_url_normalization (u : String)
    (hu : u.data.getLast? ≠ some '/')
    (em pw : String) (ro : Option Bool) :
    mkClient ⟨u ++ "/", em, pw, ro⟩ = mkClient ⟨u, em, pw, ro⟩
    ∧ (∀ (now : Int) (net : Net) (k : ClientCall),
        runCall (mkClient ⟨u ++ "/", em, pw, ro⟩) now net k
            = runCall (mkClient ⟨u, em, pw, ro⟩) now net k)
    ∧ (∀ v : String, stripTrailingSlash (v ++ "//") = v ++ "/") := by
  have hone : (u ++ "/").data = u.data ++ ['/'] := by
    rw [String.data_append]
  have h1 : stripTrailingSlash (u ++ "/") = u := by
    simp only [stripTrailingSlash, hone, List.getLast?_concat, List.dropLast_concat,
      if_pos]
  have h2 : stripTrailingSlash u = u := by
    unfold stripTrailingSlash
    rw [if_neg hu]
  have hmk : mkClient ⟨u ++ "/", em, pw, ro⟩ = mkClient ⟨u, em, pw, ro⟩ := by
    simp [mkClient, h1, h2]
  refine ⟨hmk, fun now net k => by rw [hmk], fun v => ?_⟩
  have htwo : (v ++ "//").data = (v.data ++ ['/']) ++ ['/'] := by
    rw [String.data_append]
    simp [List.append_assoc]
  simp only [stripTrailingSlash, htwo, List.getLast?_concat, List.dropLast_concat,
    if_pos]
  exact String.ext (by rw [String.data_append])

/-- C9 witness: for `u := "http://npm"`, the two constructions coincide, and
"http://npm//" strips to "http://npm/". -/
theorem C9_base_url_normalization_witness :
    mkClient ⟨"http://npm" ++ "/", "admin@local", "pw", some false⟩
        = mkClient ⟨"http://npm", "admin@local", "pw", some false⟩
    ∧ stripTrailingSlash ("http://npm" ++ "//") = "http://npm" ++ "/" :=
  ⟨(C9_base_url_normalization "http://npm" (by decide) "admin@local" "pw"
      (some false)).1,
   (C9_base_url_normalization "http://npm" (by decide) "admin@local" "pw"
      (some false)).2.2 "http://npm"⟩

/-- C10: `proxy-hosts create` never fails locally: it always dispatches a
`createProxyHost` call built from the parsed options, where a missing or
unparsable `--forward-port` silently becomes 80, a missing
`--forward-scheme` becomes "http", a missing `--forward-host` becomes the
empty string, and a missing `--domains` yields an empty domain list. -/
theorem C10_cli_create_defaults (rest : List String) :
    cliDispatch ("proxy-hosts" :: "create" :: rest)
        = CliStep.call (ClientCall.createProxyHost (cliProxyHostInput (parseArgs rest)))
    ∧ (getOpt (parseArgs rest) "forward-port" = none →
        (cliProxyHostInput (parseArgs rest)).forward_port = 80)
    ∧ (∀ v, getOpt (parseArgs rest) "forward-port" = some v → parseIntJS v = none →
        (cliProxyHostInput (parseArgs rest)).forward_port = 80)
    ∧ (getOpt (parseArgs rest) "forward-scheme" = none →
        (cliProxyHostInput (parseArgs rest)).forward_scheme = "http")
    ∧ (getOpt (parseArgs rest) "forward-host" = none →
        (cliProxyHostInput (parseArgs rest)).forward_host = "")
    ∧ (getOpt (parseArgs rest) "domains" = none →
        (cliProxyHostInput (parseArgs rest)).domain_names = []) := by
  refine ⟨rfl, ?_, ?_, ?_, ?_, ?_⟩
  · intro h
    simp [cliProxyHostInput, parseIntOr, h]
  · intro v hv hbad
    simp [cliProxyHostInput, parseIntOr, hv, hbad]
  · intro h
    simp [cliProxyHostInput, strOr, h]
  · intro h
    simp [cliProxyHostInput, strOr, h]
  · intro h
    simp [cliProxyHostInput, splitDomains, h]

/-- C10 witness: with no options at all, `proxy-hosts create` dispatches a
client call whose input carries all the defaults. -/
theorem C10_cli_create_defaults_witness :
    cliDispatch ["proxy-hosts", "create"]
        = CliStep.call (ClientCall.createProxyHost (cliProxyHostInput (parseArgs [])))
    ∧ (cliProxyHostInput (parseArgs [])).forward_port = 80
    ∧ (cliProxyHostInput (parseArgs [])).forward_scheme = "http"
    ∧ (cliProxyHostInput (parseArgs [])).forward_host = ""
    ∧ (cliProxyHostInput (parseArgs [])).domain_names = [] :=
  ⟨(C10_cli_create_defaults []).1,
   (C10_cli_create_defaults []).2.1 (by decide),
   (C10_cli_create_defaults []).2.2.2.1 (by decide),
   (C10_cli_create_defaults []).2.2.2.2.1 (by decide),
   (C10_cli_create_defaults []).2.2.2.2.2 (by decide)⟩
